import Mathlib

/-!
# DuckTrack recording engine — verification of the specification against the code

Shallow embedding of `src/ducktrack/recorder.py` (and the relevant parts of
`src/ducktrack/obs_client.py`).  Python dictionaries written to the
`events.jsonl` log are modelled by the `Event` structure; the writer loop of
`Recorder.run`, the input handlers, the lifecycle methods
(`pause_recording`, `resume_recording`, `stop_recording`) and the fallback
`MacOSInputMonitor` polling loop are modelled as pure functions over explicit
state.  Wall-clock times are `Nat`; calls into external collaborators that can
raise (OBS websocket requests, metadata manager, listener start) are modelled
by boolean failure flags describing whether the call raises.
-/

namespace DuckTrack

/-- The `action` tag of a record written to `events.jsonl`, as produced by the
handlers and the writer loop in `recorder.py`. -/
inductive EvKind where
  | move
  | click
  | scroll
  | press
  | release
  | pause
  | resume
  | sentinel
  | directSentinel
  | recordingStarted
  | recordingEnded
  | inputCaptureMethod
  | heartbeat
  | fallbackMonitorStarted
  | listenersStarted
  | listenersUnavailable
  deriving DecidableEq, Repr

/-- One JSON record of `events.jsonl`: an action tag plus the payload fields
used by the handlers (`x`/`y` coordinates, button id, pressed flag, key id,
capture timestamp).  Fields irrelevant to a given kind keep their default. -/
structure Event where
  kind : EvKind
  x : Int := 0
  y : Int := 0
  dx : Int := 0
  dy : Int := 0
  button : Nat := 0
  pressed : Bool := false
  key : Nat := 0
  t : Nat := 0
  deriving DecidableEq, Repr

/-- The sentinel record enqueued by the writer loop on a queue timeout
(`recorder.py` lines 592-597). -/
def sentinelEv (t : Nat) : Event := { kind := .sentinel, t := t }

/-- The record written straight to the file when nothing has been written for
more than 5 seconds (`recorder.py` lines 573-577). -/
def directSentinelEv (t : Nat) : Event := { kind := .directSentinel, t := t }

/-- State of the event sink: the writer loop of `Recorder.run` together with
`self.event_queue` and the `events.jsonl` file.  `puts` and `written` are
ghost fields recording, in order, every event ever enqueued with
`event_queue.put` and every event written to the file after being dequeued
with `event_queue.get`. -/
structure SinkState where
  queue : List Event := []
  log : List Event := []
  puts : List Event := []
  written : List Event := []
  lastSentinel : Nat := 0
  lastWrite : Nat := 0
  deriving DecidableEq, Repr

/-- Producers enqueue events (`event_queue.put(event, block=False)`); the
queue created by `Queue()` is unbounded, so the put always succeeds. -/
def SinkState.enqueueAll (s : SinkState) (arrivals : List Event) : SinkState :=
  { s with queue := s.queue ++ arrivals, puts := s.puts ++ arrivals }

/-- The direct-sentinel guard at the top of each loop iteration
(`recorder.py` lines 571-580): if more than 5 seconds passed since the last
file write, a `direct_sentinel` record is written straight to the file,
bypassing the queue. -/
def writeDirect (t : Nat) (s : SinkState) : SinkState :=
  if 5 < t - s.lastWrite then
    { s with log := s.log ++ [directSentinelEv t], lastWrite := t }
  else s

/-- The queue drain of one loop iteration (`recorder.py` lines 583-598): one
event is taken with `event_queue.get(timeout=0.5)` and written to the file;
on `Empty`, a `sentinel` is enqueued if more than 2 seconds passed since the
last sentinel. -/
def drainOne (t : Nat) (s : SinkState) : SinkState :=
  match s.queue with
  | e :: rest =>
      { s with queue := rest, log := s.log ++ [e],
               written := s.written ++ [e], lastWrite := t }
  | [] =>
      if 2 < t - s.lastSentinel then
        { s with queue := [sentinelEv t], puts := s.puts ++ [sentinelEv t],
                 lastSentinel := t }
      else s

/-- One iteration of the writer loop in `Recorder.run` (lines 566-598), at
wall-clock time `t`, after the producers have enqueued `arrivals`. -/
def sinkStep (t : Nat) (arrivals : List Event) (s : SinkState) : SinkState :=
  drainOne t (writeDirect t (s.enqueueAll arrivals))

/-- Iterating the writer loop over a trace of (time, producer arrivals)
pairs. -/
def sinkRun : List (Nat × List Event) → SinkState → SinkState
  | [], s => s
  | (t, a) :: rest, s => sinkRun rest (sinkStep t a s)

/-- Invariant of the sink: the events written from the queue followed by the
events still queued are exactly the events enqueued, in enqueue order; and the
written events appear in the log, in order. -/
def SinkInv (s : SinkState) : Prop :=
  s.puts = s.written ++ s.queue ∧ List.Sublist s.written s.log

/-- State of one `Recorder` object: the mutable flags `_is_recording` and
`_is_paused`, the event queue shared with the writer loop, and booleans
tracking the resources and collaborator effects touched by
`stop_recording`. -/
structure RecorderState where
  isRecording : Bool := false
  isPaused : Bool := false
  queue : List Event := []
  fileOpen : Bool := false
  backendRunning : Bool := false
  metadataFinalized : Bool := false
  obsStopped : Bool := false
  metadataSaved : Bool := false
  signalEmitted : Bool := false
  deriving DecidableEq, Repr

def moveEvent (x y : Int) (t : Nat) : Event :=
  { kind := .move, x := x, y := y, t := t }

def clickEvent (x y : Int) (button : Nat) (pressed : Bool) (t : Nat) : Event :=
  { kind := .click, x := x, y := y, button := button, pressed := pressed, t := t }

def scrollEvent (x y dx dy : Int) (t : Nat) : Event :=
  { kind := .scroll, x := x, y := y, dx := dx, dy := dy, t := t }

def pressEvent (key : Nat) (t : Nat) : Event :=
  { kind := .press, key := key, t := t }

def releaseEvent (key : Nat) (t : Nat) : Event :=
  { kind := .release, key := key, t := t }

def pauseEv (t : Nat) : Event := { kind := .pause, t := t }

def resumeEv (t : Nat) : Event := { kind := .resume, t := t }

namespace Recorder

/-- `Recorder.on_move` (lines 381-398): the event is built and enqueued only
when `not self._is_paused and self._is_recording`. -/
def on_move (x y : Int) (t : Nat) (s : RecorderState) : RecorderState :=
  if s.isPaused = false ∧ s.isRecording = true then
    { s with queue := s.queue ++ [moveEvent x y t] }
  else s

/-- `Recorder.on_click` (lines 400-414), same guard as `on_move`. -/
def on_click (x y : Int) (button : Nat) (pressed : Bool) (t : Nat)
    (s : RecorderState) : RecorderState :=
  if s.isPaused = false ∧ s.isRecording = true then
    { s with queue := s.queue ++ [clickEvent x y button pressed t] }
  else s

/-- `Recorder.on_scroll` (lines 416-427), same guard. -/
def on_scroll (x y dx dy : Int) (t : Nat) (s : RecorderState) : RecorderState :=
  if s.isPaused = false ∧ s.isRecording = true then
    { s with queue := s.queue ++ [scrollEvent x y dx dy t] }
  else s

/-- `Recorder.on_press` (lines 429-441), same guard. -/
def on_press (key : Nat) (t : Nat) (s : RecorderState) : RecorderState :=
  if s.isPaused = false ∧ s.isRecording = true then
    { s with queue := s.queue ++ [pressEvent key t] }
  else s

/-- `Recorder.on_release` (lines 443-453), same guard. -/
def on_release (key : Nat) (t : Nat) (s : RecorderState) : RecorderState :=
  if s.isPaused = false ∧ s.isRecording = true then
    { s with queue := s.queue ++ [releaseEvent key t] }
  else s

/-- `Recorder.pause_recording` (lines 679-684).  Guarded by
`not self._is_paused and self._is_recording`; sets `_is_paused = True`, then
calls `self.obs_client.pause_recording()` (which issues
`req_client.pause_record()` and may raise, modelled by `obsRaises`), and only
after that returning enqueues the `pause` record.  The returned boolean says
whether the OBS client was called. -/
def pause_recording (obsRaises : Bool) (t : Nat) (s : RecorderState) :
    RecorderState × Bool :=
  if s.isPaused = false ∧ s.isRecording = true then
    let s1 := { s with isPaused := true }
    if obsRaises then (s1, true)
    else ({ s1 with queue := s1.queue ++ [pauseEv t] }, true)
  else (s, false)

/-- `Recorder.resume_recording` (lines 686-691), mirror of
`pause_recording`. -/
def resume_recording (obsRaises : Bool) (t : Nat) (s : RecorderState) :
    RecorderState × Bool :=
  if s.isPaused = true ∧ s.isRecording = true then
    let s1 := { s with isPaused := false }
    if obsRaises then (s1, true)
    else ({ s1 with queue := s1.queue ++ [resumeEv t] }, true)
  else (s, false)

end Recorder

/-- Which of the individually guarded teardown steps of
`Recorder.stop_recording` raise an exception (each is wrapped in its own
`try/except` that logs and continues). -/
structure StopFails where
  stopListeners : Bool := false
  endCollect : Bool := false
  obsStop : Bool := false
  closeFile : Bool := false
  saveMetadata : Bool := false
  deriving DecidableEq, Repr

/-- The teardown steps of `Recorder.stop_recording` (lines 620-677), in
source order. -/
inductive StopStep where
  | flipFlag
  | graceDelay
  | stopListeners
  | endCollect
  | obsStop
  | closeFile
  | saveMetadata
  | emitSignal
  deriving DecidableEq, Repr

/-- The fixed teardown order of `Recorder.stop_recording`. -/
def stopOrder : List StopStep :=
  [.flipFlag, .graceDelay, .stopListeners, .endCollect, .obsStop,
   .closeFile, .saveMetadata, .emitSignal]

namespace Recorder

/-- `Recorder.stop_recording` (lines 620-677).  Runs only when
`self._is_recording`; flips the flag, sleeps 0.5s, then attempts each
teardown step inside its own `try/except` (a raising step leaves its effect
undone but never prevents the following steps), and finally emits
`recording_stopped` — the signal is emitted on the normal path and in the
outer `except` alike.  Returns the steps attempted, in order. -/
def stop_recording (f : StopFails) (s : RecorderState) :
    RecorderState × List StopStep :=
  if s.isRecording = true then
    let s1 := { s with isRecording := false }
    let s2 := if f.stopListeners then s1 else { s1 with backendRunning := false }
    let s3 := if f.endCollect then s2 else { s2 with metadataFinalized := true }
    let s4 := if f.obsStop then s3 else { s3 with obsStopped := true }
    let s5 := if f.closeFile then s4 else { s4 with fileOpen := false }
    let s6 := if f.saveMetadata then s5 else { s5 with metadataSaved := true }
    ({ s6 with signalEmitted := true }, stopOrder)
  else (s, [])

end Recorder

/-- The `Recorder` state right after `Recorder.__init__` raised while
constructing `OBSClient` (line 258): `events.jsonl` was already opened at
line 252, `_is_recording`/`_is_paused` were set to `False` at lines 248-249,
and no listener or monitor has been started. -/
def halfInitState : RecorderState :=
  { isRecording := false, isPaused := false, queue := [], fileOpen := true,
    backendRunning := false }

/-! ## Backend selection (`Recorder.__init__` lines 194-334 and the
`capture_method` computation in `Recorder.run` lines 468-478) -/

/-- The platform, as tested by `system() == "Darwin"`. -/
inductive Platform where
  | darwin
  | other
  deriving DecidableEq, Repr, Fintype

/-- Outcome of the initial pynput smoke test in `Recorder.__init__`
(lines 206-244): it may pass, raise the `_ThreadHandle ... not callable`
`TypeError` (the capability error), raise a different `TypeError`, or raise
some other exception. -/
inductive InitTestOutcome where
  | ok
  | threadHandleTypeError
  | otherTypeError
  | otherError
  deriving DecidableEq, Repr, Fintype

/-- Outcome of constructing the pynput listeners (lines 278-287): both
constructors succeed, or `mouse.Listener` raises, or `keyboard.Listener`
raises (after `self.mouse_listener` was already assigned). -/
inductive CreateOutcome where
  | ok
  | raiseAtMouse
  | raiseAtKeyboard
  deriving DecidableEq, Repr, Fintype

/-- Outcome of the listener smoke test at lines 289-299: pass, the
`_ThreadHandle` `TypeError`, or any other exception (a different `TypeError`
is re-raised at line 314 and so lands in the same outer handler). -/
inductive ListenerTestOutcome where
  | ok
  | threadHandleTypeError
  | otherError
  deriving DecidableEq, Repr, Fintype

/-- The `capture_method` values computed in `Recorder.run` lines 468-478
and written to the log as the `input_capture_method` record. -/
inductive CaptureMethod where
  | fallbackPynputError
  | fallbackPermissions
  | pynputListeners
  | methodNone
  deriving DecidableEq, Repr, Fintype

/-- Phase 1 of `Recorder.__init__` (lines 200-244): the macOS-only initial
pynput test and permission check.  Returns `(use_fallback,
thread_handle_error_detected)`. -/
def initFlags (p : Platform) (initTest : InitTestOutcome)
    (permissionsOK : Bool) : Bool × Bool :=
  match p with
  | .other => (false, false)
  | .darwin =>
    match initTest with
    | .ok => (!permissionsOK, false)
    | .threadHandleTypeError => (true, true)
    | .otherTypeError => (!permissionsOK, false)
    | .otherError => (!permissionsOK, false)

/-- The listener attributes as they stand after `Recorder.__init__`
finishes. -/
structure ListenerSetup where
  useFallback : Bool
  threadHandleError : Bool
  hasMouse : Bool
  hasKeyboard : Bool
  hasMonitor : Bool
  deriving DecidableEq, Repr

/-- Phase 2 of `Recorder.__init__` (lines 261-334): construct either the
macOS fallback monitor or the pynput listeners, run the listener smoke test,
and handle exceptions — a `_ThreadHandle` `TypeError` switches to the
fallback monitor on any platform (lines 300-312); any other exception is
caught at line 315, switching to the fallback monitor on macOS and merely
warning elsewhere. -/
def setupListeners (p : Platform) (uf th : Bool) (create : CreateOutcome)
    (ltest : ListenerTestOutcome) : ListenerSetup :=
  if p = .darwin ∧ (uf || th) = true then
    { useFallback := uf, threadHandleError := th,
      hasMouse := false, hasKeyboard := false, hasMonitor := true }
  else
    match create with
    | .raiseAtMouse =>
        if p = .darwin then
          { useFallback := true, threadHandleError := th,
            hasMouse := false, hasKeyboard := false, hasMonitor := true }
        else
          { useFallback := uf, threadHandleError := th,
            hasMouse := false, hasKeyboard := false, hasMonitor := false }
    | .raiseAtKeyboard =>
        if p = .darwin then
          { useFallback := true, threadHandleError := th,
            hasMouse := false, hasKeyboard := false, hasMonitor := true }
        else
          { useFallback := uf, threadHandleError := th,
            hasMouse := true, hasKeyboard := false, hasMonitor := false }
    | .ok =>
        match ltest with
        | .ok =>
            { useFallback := uf, threadHandleError := th,
              hasMouse := true, hasKeyboard := true, hasMonitor := false }
        | .threadHandleTypeError =>
            { useFallback := true, threadHandleError := true,
              hasMouse := false, hasKeyboard := false, hasMonitor := true }
        | .otherError =>
            if p = .darwin then
              { useFallback := true, threadHandleError := th,
                hasMouse := false, hasKeyboard := false, hasMonitor := true }
            else
              { useFallback := uf, threadHandleError := th,
                hasMouse := true, hasKeyboard := true, hasMonitor := false }

/-- The `capture_method` computation at the top of `Recorder.run`
(lines 468-478). -/
def captureMethodOf (p : Platform) (ls : ListenerSetup) : CaptureMethod :=
  if p = .darwin ∧ (ls.useFallback || ls.threadHandleError) = true then
    if ls.threadHandleError then .fallbackPynputError else .fallbackPermissions
  else if (ls.hasMouse && ls.hasKeyboard) = true then .pynputListeners
  else .methodNone

/-- End-to-end backend selection: `Recorder.__init__` followed by the
`capture_method` computation of `Recorder.run`. -/
def selectCaptureMethod (p : Platform) (initTest : InitTestOutcome)
    (permissionsOK : Bool) (create : CreateOutcome)
    (ltest : ListenerTestOutcome) : CaptureMethod :=
  let fl := initFlags p initTest permissionsOK
  captureMethodOf p (setupListeners p fl.1 fl.2 create ltest)

/-! ## The macOS fallback monitor (`MacOSInputMonitor._run_monitor`,
lines 50-93) -/

/-- Outcome of one `_get_mouse_position` sampling attempt as observed by the
`try/except` at lines 62-74: a returned position, or an exception. -/
inductive SampleOutcome where
  | ok (x y : Int)
  | err
  deriving DecidableEq, Repr

/-- `self.max_permission_checks` (line 32). -/
def maxPermissionChecks : Nat := 3

/-- Loop-local state of `MacOSInputMonitor._run_monitor`:
`self.permission_check_count` and `last_sentinel_time`. -/
structure MonitorState where
  permissionCheckCount : Nat := 0
  lastSentinelTime : Nat := 0
  deriving DecidableEq, Repr

namespace MacOSInputMonitor

/-- One iteration of `MacOSInputMonitor._run_monitor` (lines 56-89) at time
`t`: if fewer than `max_permission_checks` failures have been counted, the
position is sampled — a success emits a `move` only when `x > 0 or y > 0`, a
failure increments the counter; then a `sentinel` is emitted whenever more
than 2 seconds passed since the last one, regardless of the sampling.
Returns the new state, the events handed to the `on_click` callback, and
whether a sampling attempt was made. -/
def monitorStep (t : Nat) (sample : SampleOutcome) (s : MonitorState) :
    MonitorState × List Event × Bool :=
  let att :=
    if s.permissionCheckCount < maxPermissionChecks then
      match sample with
      | .ok x y =>
          (s, if 0 < x ∨ 0 < y then [moveEvent x y t] else [], true)
      | .err =>
          ({ s with permissionCheckCount := s.permissionCheckCount + 1 },
           [], true)
    else (s, [], false)
  if 2 < t - att.1.lastSentinelTime then
    ({ att.1 with lastSentinelTime := t }, att.2.1 ++ [sentinelEv t], att.2.2)
  else att

/-- Iterating the monitor loop; collects the emitted events and, per
iteration, whether a sampling attempt was made. -/
def monitorRun (tr : List (Nat × SampleOutcome)) (s : MonitorState) :
    MonitorState × List Event × List Bool :=
  match tr with
  | [] => (s, [], [])
  | (t, smp) :: rest =>
      let st := monitorStep t smp s
      let rec0 := monitorRun rest st.1
      (rec0.1, st.2.1 ++ rec0.2.1, st.2.2 :: rec0.2.2)

end MacOSInputMonitor

/-! ## `Recorder.run` end to end (lines 455-618) -/

/-- The fixed records written by `Recorder.run` outside the loop. -/
def startedEv : Event := { kind := .recordingStarted }

def endedEv : Event := { kind := .recordingEnded }

def methodEv : Event := { kind := .inputCaptureMethod }

def heartbeatEv : Event := { kind := .heartbeat }

/-- The diagnostic record written by the listener-start region of
`Recorder.run` (lines 487-549) on its normal path, per capture method. -/
def preLoopWrites : CaptureMethod → List Event
  | .fallbackPynputError => [{ kind := .fallbackMonitorStarted }]
  | .fallbackPermissions => [{ kind := .fallbackMonitorStarted }]
  | .pynputListeners => [{ kind := .listenersStarted }]
  | .methodNone => [{ kind := .listenersUnavailable }]

/-- Environment of one `Recorder.run` invocation.  `startFails` models an
exception raised by `metadata_manager.collect()` or
`obs_client.start_recording()` (lines 458-459, outside every `try`);
`listenerStartRaises` models an exception escaping the listener-start region
(e.g. `macos_monitor.start()` raising), which is caught by the outer
`except` at line 609 so that the loop never runs; `t0` is the wall-clock
time at loop entry, `initQueue` the events enqueued by producers before the
loop starts, `trace` the loop iterations. -/
structure RunEnv where
  startFails : Bool := false
  listenerStartRaises : Bool := false
  method : CaptureMethod := .pynputListeners
  t0 : Nat := 0
  initQueue : List Event := []
  trace : List (Nat × List Event) := []
  deriving Repr

namespace Recorder

/-- `Recorder.run` (lines 455-618), returning the sequence of records in
`events.jsonl`.  If `metadata_manager.collect()` or
`obs_client.start_recording()` raises, the exception propagates before the
`recording_started` write at line 462 and nothing at all is written.
Otherwise `recording_started` and `input_capture_method` are written, the
listener-start region runs inside the outer `try` (on an exception the loop
is skipped), the writer loop drains the queue, and the final
`recording_ended` record is written unconditionally (lines 612-618). -/
def run (env : RunEnv) : List Event :=
  if env.startFails then []
  else if env.listenerStartRaises then
    [startedEv, methodEv] ++ [endedEv]
  else
    let pre := [startedEv, methodEv] ++ preLoopWrites env.method ++ [heartbeatEv]
    let s0 : SinkState :=
      { queue := env.initQueue, log := pre, puts := env.initQueue,
        written := [], lastSentinel := env.t0, lastWrite := env.t0 }
    (sinkRun env.trace s0).log ++ [endedEv]

end Recorder

lemma enqueueAll_inv (a : List Event) (s : SinkState)
    (h : SinkInv s) : SinkInv (s.enqueueAll a) := by
  obtain ⟨h1, h2⟩ := h
  exact ⟨by simp [SinkState.enqueueAll, h1, List.append_assoc], h2⟩

lemma writeDirect_inv (t : Nat) (s : SinkState)
    (h : SinkInv s) : SinkInv (writeDirect t s) := by
  obtain ⟨h1, h2⟩ := h
  unfold writeDirect
  split
  · exact ⟨h1, h2.trans (List.sublist_append_left s.log [directSentinelEv t])⟩
  · exact ⟨h1, h2⟩

lemma drainOne_inv (t : Nat) (s : SinkState)
    (h : SinkInv s) : SinkInv (drainOne t s) := by
  obtain ⟨h1, h2⟩ := h
  unfold drainOne
  split
  case _ e rest hq =>
    constructor
    · simp only [h1, hq]
      simp
    · exact h2.append (List.Sublist.refl [e])
  case _ hq =>
    split
    · exact ⟨by simp [h1, hq], h2⟩
    · exact ⟨h1, h2⟩

lemma sinkStep_inv (t : Nat) (a : List Event) (s : SinkState)
    (h : SinkInv s) : SinkInv (sinkStep t a s) :=
  drainOne_inv t _ (writeDirect_inv t _ (enqueueAll_inv a s h))

lemma enqueueAll_nil (s : SinkState) : s.enqueueAll [] = s := by
  simp [SinkState.enqueueAll]

lemma writeDirect_fire (t : Nat) (s : SinkState) (h : 5 < t - s.lastWrite) :
    writeDirect t s
      = { s with log := s.log ++ [directSentinelEv t], lastWrite := t } := by
  simp [writeDirect, h]

lemma writeDirect_skip (t : Nat) (s : SinkState) (h : ¬ 5 < t - s.lastWrite) :
    writeDirect t s = s := by
  simp [writeDirect, h]

lemma drainOne_empty_fire (t : Nat) (s : SinkState) (hq : s.queue = [])
    (h : 2 < t - s.lastSentinel) :
    drainOne t s
      = { s with queue := [sentinelEv t], puts := s.puts ++ [sentinelEv t],
                 lastSentinel := t } := by
  simp [drainOne, hq, h]

lemma drainOne_cons (t : Nat) (s : SinkState) (e : Event) (rest : List Event)
    (hq : s.queue = e :: rest) :
    drainOne t s
      = { s with queue := rest, log := s.log ++ [e],
                 written := s.written ++ [e], lastWrite := t } := by
  simp [drainOne, hq]

lemma writeDirect_log_extend (t : Nat) (s : SinkState) :
    ∃ d, (writeDirect t s).log = s.log ++ d := by
  unfold writeDirect
  split
  · exact ⟨[directSentinelEv t], rfl⟩
  · exact ⟨[], by simp⟩

lemma drainOne_log_extend (t : Nat) (s : SinkState) :
    ∃ d, (drainOne t s).log = s.log ++ d := by
  unfold drainOne
  split
  · exact ⟨_, rfl⟩
  · split
    · exact ⟨[], by simp⟩
    · exact ⟨[], by simp⟩

lemma sinkStep_log_extend (t : Nat) (a : List Event) (s : SinkState) :
    ∃ d, (sinkStep t a s).log = s.log ++ d := by
  unfold sinkStep
  obtain ⟨d1, h1⟩ := writeDirect_log_extend t (s.enqueueAll a)
  obtain ⟨d2, h2⟩ := drainOne_log_extend t (writeDirect t (s.enqueueAll a))
  exact ⟨d1 ++ d2, by
    rw [h2, h1, List.append_assoc]
    simp [SinkState.enqueueAll]⟩

lemma sinkRun_log_extend (tr : List (Nat × List Event)) (s : SinkState) :
    ∃ d, (sinkRun tr s).log = s.log ++ d := by
  induction tr generalizing s with
  | nil => exact ⟨[], by simp [sinkRun]⟩
  | cons p rest ih =>
      obtain ⟨d1, h1⟩ := sinkStep_log_extend p.1 p.2 s
      obtain ⟨d2, h2⟩ := ih (sinkStep p.1 p.2 s)
      exact ⟨d1 ++ d2, by simp [sinkRun, h2, h1, List.append_assoc]⟩

lemma sinkRun_inv (tr : List (Nat × List Event)) (s : SinkState)
    (h : SinkInv s) : SinkInv (sinkRun tr s) := by
  induction tr generalizing s with
  | nil => exact h
  | cons p rest ih => exact ih _ (sinkStep_inv p.1 p.2 s h)

end DuckTrack

/-- Claim C4: events successfully enqueued to the sink queue appear in the
durable log in FIFO enqueue order — the events written from the queue are a
prefix of the enqueue order (no reordering, no deduplication, no coalescing)
and occur in the log in that same order; submissions still queued are the
remaining suffix, so at worst a suffix is dropped, never permuted. -/
theorem claim_C4_event_sink_fifo (tr : List (Nat × List DuckTrack.Event))
    (initQ log0 : List DuckTrack.Event) (ls lw : Nat) :
    let f := DuckTrack.sinkRun tr
      { queue := initQ, log := log0, puts := initQ, written := [],
        lastSentinel := ls, lastWrite := lw }
    f.puts = f.written ++ f.queue ∧
    f.written = f.puts.take f.written.length ∧
    List.Sublist f.written f.log := by
  intro f
  have h : DuckTrack.SinkInv f := by
    apply DuckTrack.sinkRun_inv
    constructor
    · simp
    · exact List.nil_sublist log0
  obtain ⟨h1, h2⟩ := h
  refine ⟨h1, ?_, h2⟩
  rw [h1, List.take_left]

/-- Claim C1, counterexample: when `obs_client.start_recording()` (or
`metadata_manager.collect()`) raises while starting the external recorder,
`Recorder.run` aborts before the `recording_started` write at line 462, so
the log is empty — it neither begins with `recording_started` nor ends with
`recording_ended`, refuting the claim on this abnormal shutdown path. -/
theorem claim_C1_counterexample :
    ¬ (((DuckTrack.Recorder.run { startFails := true }).head?
          = some DuckTrack.startedEv) ∧
       ((DuckTrack.Recorder.run { startFails := true }).getLast?
          = some DuckTrack.endedEv)) := by
  decide

/-- Claim C1 (amended): for every lifecycle sequence in which the external
recorder start call (and metadata collection) returns normally — so that
`Recorder.run` reaches the `recording_started` write — the durable log begins
with `recording_started` and ends with `recording_ended`, for every capture
method, every producer activity, and also when the listener-start region
raises; only an exception raised while starting the external recorder (before
the first write) escapes this guarantee, leaving the log empty. -/
theorem claim_C1_log_bracketing (env : DuckTrack.RunEnv)
    (h : env.startFails = false) :
    (DuckTrack.Recorder.run env).head? = some DuckTrack.startedEv ∧
    (DuckTrack.Recorder.run env).getLast? = some DuckTrack.endedEv := by
  unfold DuckTrack.Recorder.run
  by_cases hl : env.listenerStartRaises
  · simp [h, hl, DuckTrack.startedEv, DuckTrack.endedEv, DuckTrack.methodEv]
  · simp only [h, hl, Bool.false_eq_true, if_false]
    constructor
    · obtain ⟨d, hd⟩ := DuckTrack.sinkRun_log_extend env.trace
        { queue := env.initQueue,
          log := [DuckTrack.startedEv, DuckTrack.methodEv]
                   ++ DuckTrack.preLoopWrites env.method
                   ++ [DuckTrack.heartbeatEv],
          puts := env.initQueue, written := [],
          lastSentinel := env.t0, lastWrite := env.t0 }
      rw [hd]
      simp
    · exact List.getLast?_concat _

theorem claim_C1_log_bracketing_witness :
    (DuckTrack.Recorder.run {}).head? = some DuckTrack.startedEv ∧
    (DuckTrack.Recorder.run {}).getLast? = some DuckTrack.endedEv :=
  claim_C1_log_bracketing {} rfl

/-- Claim C2, counterexample: while the session is paused, `Recorder.on_move`
(line 382) is guarded by `not self._is_paused and self._is_recording`, so an
input event delivered by the backend is dropped, not enqueued — refuting the
claim that input is still written to the log while paused. -/
theorem claim_C2_counterexample :
    ¬ ((DuckTrack.Recorder.on_move 5 6 7
          { isRecording := true, isPaused := true }).queue
        = ({ isRecording := true, isPaused := true } :
            DuckTrack.RecorderState).queue ++ [DuckTrack.moveEvent 5 6 7]) := by
  decide

/-- Claim C2 (amended): pausing indeed stops neither the capture backend nor
the event sink (`pause_recording` touches only the flags, the OBS client and
the queue), but the input handlers check `_is_paused` and drop every input
event delivered while paused: `on_move`, `on_click`, `on_scroll`, `on_press`
and `on_release` leave the state unchanged whenever `_is_paused` holds, so
paused-period input is not enqueued and never reaches the durable log. -/
theorem claim_C2_paused_input_dropped (s : DuckTrack.RecorderState)
    (x y dx dy : Int) (b k : Nat) (pr obsRaises : Bool) (t : Nat)
    (hp : s.isPaused = true) :
    DuckTrack.Recorder.on_move x y t s = s ∧
    DuckTrack.Recorder.on_click x y b pr t s = s ∧
    DuckTrack.Recorder.on_scroll x y dx dy t s = s ∧
    DuckTrack.Recorder.on_press k t s = s ∧
    DuckTrack.Recorder.on_release k t s = s ∧
    (∀ s2 : DuckTrack.RecorderState, s2.isPaused = false →
      s2.isRecording = true →
      ((DuckTrack.Recorder.pause_recording obsRaises t s2).1.backendRunning
          = s2.backendRunning ∧
       (DuckTrack.Recorder.pause_recording obsRaises t s2).1.isRecording
          = true)) := by
  refine ⟨?_, ?_, ?_, ?_, ?_, ?_⟩
  · simp [DuckTrack.Recorder.on_move, hp]
  · simp [DuckTrack.Recorder.on_click, hp]
  · simp [DuckTrack.Recorder.on_scroll, hp]
  · simp [DuckTrack.Recorder.on_press, hp]
  · simp [DuckTrack.Recorder.on_release, hp]
  · intro s2 hp2 hr2
    cases obsRaises <;>
      simp [DuckTrack.Recorder.pause_recording, hp2, hr2]

theorem claim_C2_paused_input_dropped_witness :
    DuckTrack.Recorder.on_move 1 2 3 { isRecording := true, isPaused := true }
      = { isRecording := true, isPaused := true } :=
  (claim_C2_paused_input_dropped { isRecording := true, isPaused := true }
    1 2 0 0 0 0 false false 3 rfl).1

/-- Claim C3, counterexample: `Recorder.pause_recording` (lines 679-684)
enqueues the `pause` record only after `obs_client.pause_recording()`
returns; when that OBS call raises, the exception propagates before the
enqueue, so after Pause (client call raises) followed by Resume (client call
succeeds) the queue holds no `pause` record at all — refuting the claim that
both records are present even when the client call raises. -/
theorem claim_C3_counterexample :
    ¬ ∃ e ∈ ((DuckTrack.Recorder.resume_recording false 2
        (DuckTrack.Recorder.pause_recording true 1
          { isRecording := true, isPaused := false }).1).1).queue,
        e.kind = DuckTrack.EvKind.pause := by
  decide

/-- Claim C3 (amended): a Pause immediately followed by a Resume with no
intervening events appends exactly one `pause` record and then exactly one
`resume` record — in that order — provided the external recorder client
calls return normally; when a client call raises, the corresponding flag is
still flipped (it is set before the OBS call) but the record is not
enqueued. -/
theorem claim_C3_pause_resume (s : DuckTrack.RecorderState) (t1 t2 : Nat)
    (hrec : s.isRecording = true) (hp : s.isPaused = false) :
    ((DuckTrack.Recorder.resume_recording false t2
        (DuckTrack.Recorder.pause_recording false t1 s).1).1).queue
      = s.queue ++ [DuckTrack.pauseEv t1, DuckTrack.resumeEv t2] ∧
    (DuckTrack.Recorder.pause_recording true t1 s).1
      = { s with isPaused := true } ∧
    (∀ s2 : DuckTrack.RecorderState, s2.isPaused = true →
      s2.isRecording = true →
      (DuckTrack.Recorder.resume_recording true t2 s2).1
        = { s2 with isPaused := false }) := by
  refine ⟨?_, ?_, ?_⟩
  · simp [DuckTrack.Recorder.pause_recording,
      DuckTrack.Recorder.resume_recording, hrec, hp]
  · simp [DuckTrack.Recorder.pause_recording, hrec, hp]
  · intro s2 hp2 hr2
    simp [DuckTrack.Recorder.resume_recording, hp2, hr2]

theorem claim_C3_pause_resume_witness :
    ((DuckTrack.Recorder.resume_recording false 2
        (DuckTrack.Recorder.pause_recording false 1
          ({ isRecording := true } : DuckTrack.RecorderState)).1).1).queue
      = ({ isRecording := true } : DuckTrack.RecorderState).queue
          ++ [DuckTrack.pauseEv 1, DuckTrack.resumeEv 2] :=
  (claim_C3_pause_resume { isRecording := true } 1 2 rfl rfl).1

/-- Claim C5: while recording, if the queue is empty and no input event
arrives, the writer loop synthesizes and enqueues a `sentinel` once the
2-second liveness window has passed; independently, whenever more than 5
seconds have passed since the last file write, a `direct_sentinel` is written
straight to the log, bypassing the queue.  Over a quiet window the log grows
only by such liveness records — at least one of them — so they appear in the
log before any later real event and the log is never silent beyond the
configured window. -/
theorem claim_C5_liveness (s : DuckTrack.SinkState) (t : Nat)
    (hq : s.queue = []) (hs : s.lastSentinel ≤ t) :
    (DuckTrack.sinkStep (t+3) [] s).queue = [DuckTrack.sentinelEv (t+3)] ∧
    (DuckTrack.sinkStep (t+3) [] s).puts
      = s.puts ++ [DuckTrack.sentinelEv (t+3)] ∧
    ∃ growth,
      (DuckTrack.sinkRun [(t+3, []), (t+4, [])] s).log = s.log ++ growth ∧
      growth ≠ [] ∧
      (∀ e ∈ growth,
        e.kind = DuckTrack.EvKind.sentinel ∨
        e.kind = DuckTrack.EvKind.directSentinel) ∧
      DuckTrack.sentinelEv (t+3) ∈ growth ∧
      (5 < (t+3) - s.lastWrite →
        DuckTrack.directSentinelEv (t+3) ∈ growth) := by
  have hsent : 2 < t + 3 - s.lastSentinel := by omega
  by_cases hA : 5 < t + 3 - s.lastWrite
  · have e1 : DuckTrack.sinkStep (t+3) [] s
        = { s with queue := [DuckTrack.sentinelEv (t+3)],
                   puts := s.puts ++ [DuckTrack.sentinelEv (t+3)],
                   log := s.log ++ [DuckTrack.directSentinelEv (t+3)],
                   lastSentinel := t+3, lastWrite := t+3 } := by
      simp [DuckTrack.sinkStep, DuckTrack.SinkState.enqueueAll,
        DuckTrack.writeDirect, DuckTrack.drainOne, hA, hq, hsent]
    have h2 : ¬ (5 < t + 4 - (t + 3)) := by omega
    have e2 : DuckTrack.sinkStep (t+4) [] (DuckTrack.sinkStep (t+3) [] s)
        = { s with queue := [],
                   puts := s.puts ++ [DuckTrack.sentinelEv (t+3)],
                   log := (s.log ++ [DuckTrack.directSentinelEv (t+3)])
                            ++ [DuckTrack.sentinelEv (t+3)],
                   written := s.written ++ [DuckTrack.sentinelEv (t+3)],
                   lastSentinel := t+3, lastWrite := t+4 } := by
      rw [e1]
      simp [DuckTrack.sinkStep, DuckTrack.SinkState.enqueueAll,
        DuckTrack.writeDirect, DuckTrack.drainOne, h2]
    refine ⟨by rw [e1], by rw [e1], ?_⟩
    refine ⟨[DuckTrack.directSentinelEv (t+3), DuckTrack.sentinelEv (t+3)],
      ?_, by simp, ?_, by simp, fun _ => by simp⟩
    · show (DuckTrack.sinkStep (t+4) []
          (DuckTrack.sinkStep (t+3) [] s)).log = _
      rw [e2]
      simp
    · intro e he
      simp at he
      rcases he with h | h <;>
        simp [h, DuckTrack.sentinelEv, DuckTrack.directSentinelEv]
  · have e1 : DuckTrack.sinkStep (t+3) [] s
        = { s with queue := [DuckTrack.sentinelEv (t+3)],
                   puts := s.puts ++ [DuckTrack.sentinelEv (t+3)],
                   lastSentinel := t+3 } := by
      simp [DuckTrack.sinkStep, DuckTrack.SinkState.enqueueAll,
        DuckTrack.writeDirect, DuckTrack.drainOne, hA, hq, hsent]
    refine ⟨by rw [e1], by rw [e1], ?_⟩
    by_cases hB : 5 < t + 4 - s.lastWrite
    · have e2 : DuckTrack.sinkStep (t+4) [] (DuckTrack.sinkStep (t+3) [] s)
          = { s with queue := [],
                     puts := s.puts ++ [DuckTrack.sentinelEv (t+3)],
                     log := (s.log ++ [DuckTrack.directSentinelEv (t+4)])
                              ++ [DuckTrack.sentinelEv (t+3)],
                     written := s.written ++ [DuckTrack.sentinelEv (t+3)],
                     lastSentinel := t+3, lastWrite := t+4 } := by
        rw [e1]
        simp [DuckTrack.sinkStep, DuckTrack.SinkState.enqueueAll,
          DuckTrack.writeDirect, DuckTrack.drainOne, hB]
      refine ⟨[DuckTrack.directSentinelEv (t+4), DuckTrack.sentinelEv (t+3)],
        ?_, by simp, ?_, by simp, fun hc => absurd hc hA⟩
      · show (DuckTrack.sinkStep (t+4) []
            (DuckTrack.sinkStep (t+3) [] s)).log = _
        rw [e2]
        simp
      · intro e he
        simp at he
        rcases he with h | h <;>
          simp [h, DuckTrack.sentinelEv, DuckTrack.directSentinelEv]
    · have e2 : DuckTrack.sinkStep (t+4) [] (DuckTrack.sinkStep (t+3) [] s)
          = { s with queue := [],
                     puts := s.puts ++ [DuckTrack.sentinelEv (t+3)],
                     log := s.log ++ [DuckTrack.sentinelEv (t+3)],
                     written := s.written ++ [DuckTrack.sentinelEv (t+3)],
                     lastSentinel := t+3, lastWrite := t+4 } := by
        rw [e1]
        simp [DuckTrack.sinkStep, DuckTrack.SinkState.enqueueAll,
          DuckTrack.writeDirect, DuckTrack.drainOne, hB]
      refine ⟨[DuckTrack.sentinelEv (t+3)],
        ?_, by simp, ?_, by simp, fun hc => absurd hc hA⟩
      · show (DuckTrack.sinkStep (t+4) []
            (DuckTrack.sinkStep (t+3) [] s)).log = _
        rw [e2]
      · intro e he
        simp at he
        simp [he, DuckTrack.sentinelEv]

theorem claim_C5_liveness_witness :
    (DuckTrack.sinkStep (0+3) [] ({} : DuckTrack.SinkState)).queue
      = [DuckTrack.sentinelEv (0+3)] :=
  (claim_C5_liveness {} 0 rfl (Nat.le_refl 0)).1

namespace DuckTrack

lemma monitorStep_saturated (t : Nat) (smp : SampleOutcome) (s : MonitorState)
    (h : maxPermissionChecks ≤ s.permissionCheckCount) :
    (MacOSInputMonitor.monitorStep t smp s).2.2 = false ∧
    (∀ e ∈ (MacOSInputMonitor.monitorStep t smp s).2.1,
      e.kind = EvKind.sentinel) ∧
    maxPermissionChecks
      ≤ (MacOSInputMonitor.monitorStep t smp s).1.permissionCheckCount := by
  have hn : ¬ s.permissionCheckCount < maxPermissionChecks := by omega
  by_cases h2 : 2 < t - s.lastSentinelTime
  · refine ⟨?_, ?_, ?_⟩ <;>
      simp [MacOSInputMonitor.monitorStep, hn, h2, sentinelEv, h]
  · refine ⟨?_, ?_, ?_⟩ <;>
      simp [MacOSInputMonitor.monitorStep, hn, h2, sentinelEv, h]

lemma monitorRun_saturated (tr : List (Nat × SampleOutcome)) (s : MonitorState)
    (h : maxPermissionChecks ≤ s.permissionCheckCount) :
    (MacOSInputMonitor.monitorRun tr s).2.2
      = List.replicate tr.length false ∧
    ∀ e ∈ (MacOSInputMonitor.monitorRun tr s).2.1,
      e.kind = EvKind.sentinel := by
  induction tr generalizing s with
  | nil => simp [MacOSInputMonitor.monitorRun]
  | cons p rest ih =>
      obtain ⟨a1, a2, a3⟩ := monitorStep_saturated p.1 p.2 s h
      obtain ⟨b1, b2⟩ := ih _ a3
      constructor
      · simp [MacOSInputMonitor.monitorRun, a1, b1, List.replicate_succ]
      · intro e he
        simp only [MacOSInputMonitor.monitorRun, List.mem_append] at he
        rcases he with h1 | h1
        · exact a2 e h1
        · exact b2 e h1

lemma monitorStep_count_err (t : Nat) (s : MonitorState)
    (h : s.permissionCheckCount < maxPermissionChecks) :
    (MacOSInputMonitor.monitorStep t .err s).1.permissionCheckCount
      = s.permissionCheckCount + 1 := by
  by_cases h2 : 2 < t - s.lastSentinelTime <;>
    simp [MacOSInputMonitor.monitorStep, h, h2]

lemma monitorStep_err_kinds (t : Nat) (s : MonitorState) :
    ∀ e ∈ (MacOSInputMonitor.monitorStep t .err s).2.1,
      e.kind = EvKind.sentinel := by
  intro e he
  by_cases hc : s.permissionCheckCount < maxPermissionChecks <;>
    by_cases h2 : 2 < t - s.lastSentinelTime <;>
      simp [MacOSInputMonitor.monitorStep, hc, h2] at he <;>
        simp [he, sentinelEv]

lemma monitorStep_ok_origin_kinds (t : Nat) (s : MonitorState) (x y : Int)
    (pos : ¬ (0 < x ∨ 0 < y)) :
    ∀ e ∈ (MacOSInputMonitor.monitorStep t (.ok x y) s).2.1,
      e.kind = EvKind.sentinel := by
  intro e he
  by_cases hc : s.permissionCheckCount < maxPermissionChecks <;>
    by_cases h2 : 2 < t - s.lastSentinelTime <;>
      simp [MacOSInputMonitor.monitorStep, hc, h2, pos] at he <;>
        simp [he, sentinelEv]

lemma stop_noop (f : StopFails) (s : RecorderState)
    (h : s.isRecording = false) :
    Recorder.stop_recording f s = (s, []) := by
  simp [Recorder.stop_recording, h]

lemma pause_noop (b : Bool) (t : Nat) (s : RecorderState)
    (h : ¬ (s.isPaused = false ∧ s.isRecording = true)) :
    Recorder.pause_recording b t s = (s, false) := by
  simp [Recorder.pause_recording, h]

lemma pause_sets_paused (b : Bool) (t : Nat) (s : RecorderState)
    (hg : s.isPaused = false ∧ s.isRecording = true) :
    (Recorder.pause_recording b t s).1.isPaused = true := by
  cases b <;> simp [Recorder.pause_recording, hg]

lemma stop_active (f : StopFails) (s : RecorderState)
    (h : s.isRecording = true) :
    (Recorder.stop_recording f s).2 = stopOrder ∧
    (Recorder.stop_recording f s).1.isRecording = false ∧
    (Recorder.stop_recording f s).1.signalEmitted = true ∧
    (f.stopListeners = false →
      (Recorder.stop_recording f s).1.backendRunning = false) ∧
    (f.endCollect = false →
      (Recorder.stop_recording f s).1.metadataFinalized = true) ∧
    (f.obsStop = false →
      (Recorder.stop_recording f s).1.obsStopped = true) ∧
    (f.closeFile = false →
      (Recorder.stop_recording f s).1.fileOpen = false) ∧
    (f.saveMetadata = false →
      (Recorder.stop_recording f s).1.metadataSaved = true) := by
  rcases f with ⟨f1, f2, f3, f4, f5⟩
  cases f1 <;> cases f2 <;> cases f3 <;> cases f4 <;> cases f5 <;>
    simp [Recorder.stop_recording, h]

end DuckTrack

/-- Claim C6: the fallback monitor loop samples the pointer position only
while fewer than `max_permission_checks = 3` failures have been counted —
after three (in particular three consecutive) sampling failures the counter
is saturated and sampling permanently stops, with only `sentinel` events
emitted from then on; a `move` is emitted only when sampling succeeds with a
position satisfying `x > 0 or y > 0` (hence never the origin); and the
`sentinel` liveness event is emitted whenever more than 2 seconds passed
since the last one, regardless of the sampling outcome. -/
theorem claim_C6_fallback_polling (t : Nat) (smp : DuckTrack.SampleOutcome)
    (s : DuckTrack.MonitorState) (tr : List (Nat × DuckTrack.SampleOutcome)) :
    (DuckTrack.maxPermissionChecks ≤ s.permissionCheckCount →
      (DuckTrack.MacOSInputMonitor.monitorRun tr s).2.2
          = List.replicate tr.length false ∧
      ∀ e ∈ (DuckTrack.MacOSInputMonitor.monitorRun tr s).2.1,
        e.kind = DuckTrack.EvKind.sentinel) ∧
    (s.permissionCheckCount = 0 → ∀ t1 t2 t3 : Nat,
      (DuckTrack.MacOSInputMonitor.monitorRun
          [(t1, .err), (t2, .err), (t3, .err)] s).1.permissionCheckCount
        = DuckTrack.maxPermissionChecks) ∧
    (∀ e ∈ (DuckTrack.MacOSInputMonitor.monitorStep t smp s).2.1,
      e.kind = DuckTrack.EvKind.move →
      ∃ x y : Int, smp = .ok x y ∧ (0 < x ∨ 0 < y) ∧ ¬ (x = 0 ∧ y = 0)) ∧
    (2 < t - s.lastSentinelTime →
      DuckTrack.sentinelEv t
        ∈ (DuckTrack.MacOSInputMonitor.monitorStep t smp s).2.1) := by
  refine ⟨?_, ?_, ?_, ?_⟩
  · intro h
    exact DuckTrack.monitorRun_saturated tr s h
  · intro h0 t1 t2 t3
    simp only [DuckTrack.MacOSInputMonitor.monitorRun]
    have h1 : (DuckTrack.MacOSInputMonitor.monitorStep t1 .err
        s).1.permissionCheckCount = 1 := by
      rw [DuckTrack.monitorStep_count_err _ _
        (by simp only [DuckTrack.maxPermissionChecks]; omega), h0]
    have h2 : (DuckTrack.MacOSInputMonitor.monitorStep t2 .err
        (DuckTrack.MacOSInputMonitor.monitorStep t1 .err
          s).1).1.permissionCheckCount = 2 := by
      rw [DuckTrack.monitorStep_count_err _ _
        (by simp only [DuckTrack.maxPermissionChecks]; omega), h1]
    have h3 : (DuckTrack.MacOSInputMonitor.monitorStep t3 .err
        (DuckTrack.MacOSInputMonitor.monitorStep t2 .err
          (DuckTrack.MacOSInputMonitor.monitorStep t1 .err
            s).1).1).1.permissionCheckCount = 3 := by
      rw [DuckTrack.monitorStep_count_err _ _
        (by simp only [DuckTrack.maxPermissionChecks]; omega), h2]
    exact h3
  · intro e he hk
    cases smp with
    | err =>
        exfalso
        have hs := DuckTrack.monitorStep_err_kinds t s e he
        rw [hk] at hs
        cases hs
    | ok x y =>
        by_cases pos : 0 < x ∨ 0 < y
        · exact ⟨x, y, rfl, pos, by omega⟩
        · exfalso
          have hs := DuckTrack.monitorStep_ok_origin_kinds t s x y pos e he
          rw [hk] at hs
          cases hs
  · intro h2
    cases smp with
    | err =>
        by_cases hc : s.permissionCheckCount < DuckTrack.maxPermissionChecks <;>
          simp [DuckTrack.MacOSInputMonitor.monitorStep, hc, h2]
    | ok x y =>
        by_cases hc : s.permissionCheckCount < DuckTrack.maxPermissionChecks <;>
          by_cases pos : 0 < x ∨ 0 < y <;>
            simp [DuckTrack.MacOSInputMonitor.monitorStep, hc, h2, pos]

theorem claim_C6_fallback_polling_witness :
    DuckTrack.sentinelEv 5
      ∈ (DuckTrack.MacOSInputMonitor.monitorStep 5 .err
          ({} : DuckTrack.MonitorState)).2.1 :=
  (claim_C6_fallback_polling 5 .err {} []).2.2.2 (by decide)

/-- Claim C7, counterexample: on macOS, when the initial test and the
permission check both pass but the listener construction then raises a
generic (non-capability) exception, the handler at `recorder.py` line 315
switches to the fallback monitor, so the recorded method is
`macOS_fallback_due_to_permissions` — a fallback variant — and not the
screen-only method `none` that the claim promises for construction failures
of any other reason. -/
theorem claim_C7_counterexample :
    DuckTrack.selectCaptureMethod .darwin .ok true .raiseAtMouse .ok
        = DuckTrack.CaptureMethod.fallbackPermissions ∧
    DuckTrack.selectCaptureMethod .darwin .ok true .raiseAtMouse .ok
        ≠ DuckTrack.CaptureMethod.methodNone := by
  decide

/-- Claim C7 (amended): backend selection is a deterministic total function
of the probe outcomes, evaluated once per session, and it never aborts the
session.  On macOS, a capability error in the initial smoke test or a failed
permission check always selects a fallback variant, never the native
listeners; a `_ThreadHandle` capability error in the listener smoke test also
never yields the native method (on macOS it selects a fallback variant, on
other platforms the session continues with method `none`).  When listener
construction raises any other exception the session still proceeds — with
method `none` on non-macOS platforms, but with a fallback variant (not
`none`) on macOS. -/
theorem claim_C7_backend_selection :
    ∀ (p : DuckTrack.Platform) (it : DuckTrack.InitTestOutcome) (pok : Bool)
      (c : DuckTrack.CreateOutcome) (lt : DuckTrack.ListenerTestOutcome),
      (p = .darwin → (it = .threadHandleTypeError ∨ pok = false) →
        (DuckTrack.selectCaptureMethod p it pok c lt
            = DuckTrack.CaptureMethod.fallbackPynputError ∨
         DuckTrack.selectCaptureMethod p it pok c lt
            = DuckTrack.CaptureMethod.fallbackPermissions)) ∧
      (lt = .threadHandleTypeError →
        DuckTrack.selectCaptureMethod p it pok c lt
          ≠ DuckTrack.CaptureMethod.pynputListeners) ∧
      (p = .darwin → lt = .threadHandleTypeError → c = .ok →
        (DuckTrack.selectCaptureMethod p it pok c lt
            = DuckTrack.CaptureMethod.fallbackPynputError ∨
         DuckTrack.selectCaptureMethod p it pok c lt
            = DuckTrack.CaptureMethod.fallbackPermissions)) ∧
      (c ≠ .ok → p = .other →
        DuckTrack.selectCaptureMethod p it pok c lt
          = DuckTrack.CaptureMethod.methodNone) ∧
      (c ≠ .ok → p = .darwin →
        (DuckTrack.selectCaptureMethod p it pok c lt
            = DuckTrack.CaptureMethod.fallbackPynputError ∨
         DuckTrack.selectCaptureMethod p it pok c lt
            = DuckTrack.CaptureMethod.fallbackPermissions)) := by
  decide


theorem claim_C7_backend_selection_witness :
    DuckTrack.selectCaptureMethod .other .ok true .raiseAtMouse .ok
      = DuckTrack.CaptureMethod.methodNone :=
  (claim_C7_backend_selection .other .ok true .raiseAtMouse .ok).2.2.2.1
    (by decide) rfl

/-- Claim C8: `stop_recording` from Recording (or Paused) always attempts
every teardown step in the fixed source order — flip the `_is_recording`
flag, grace delay, stop the capture backend, finalize metadata collection,
stop the OBS client and hand over its state-change timings, flush and close
the log, save metadata, emit `recording_stopped` — and an exception raised
in any one step (any combination of per-step failure flags) never prevents
the following steps: the step list is always the full fixed order, the flag
is always flipped, the signal always emitted, and each non-failing step
performs its effect regardless of the other steps failing. -/
theorem claim_C8_teardown (f : DuckTrack.StopFails) (s : DuckTrack.RecorderState)
    (h : s.isRecording = true) :
    (DuckTrack.Recorder.stop_recording f s).2 = DuckTrack.stopOrder ∧
    (DuckTrack.Recorder.stop_recording f s).1.isRecording = false ∧
    (DuckTrack.Recorder.stop_recording f s).1.signalEmitted = true ∧
    (f.stopListeners = false →
      (DuckTrack.Recorder.stop_recording f s).1.backendRunning = false) ∧
    (f.endCollect = false →
      (DuckTrack.Recorder.stop_recording f s).1.metadataFinalized = true) ∧
    (f.obsStop = false →
      (DuckTrack.Recorder.stop_recording f s).1.obsStopped = true) ∧
    (f.closeFile = false →
      (DuckTrack.Recorder.stop_recording f s).1.fileOpen = false) ∧
    (f.saveMetadata = false →
      (DuckTrack.Recorder.stop_recording f s).1.metadataSaved = true) :=
  DuckTrack.stop_active f s h

theorem claim_C8_teardown_witness :
    (DuckTrack.Recorder.stop_recording {}
        { isRecording := true }).2 = DuckTrack.stopOrder :=
  (claim_C8_teardown {} { isRecording := true } rfl).1

/-- Claim C9, counterexample: when `Recorder.__init__` failed constructing
`OBSClient` (recorder unreachable), `_is_recording` is still `False`, so
`stop_recording` returns at its guard without any teardown: the
`events.jsonl` handle opened at line 252 stays open, refuting the claim that
the resources opened during the partial start are released. -/
theorem claim_C9_counterexample :
    ¬ ((DuckTrack.Recorder.stop_recording {}
          DuckTrack.halfInitState).1.fileOpen = false) := by
  decide

/-- Claim C9 (amended): calling Stop on a session whose Start partially
failed (the OBS client was unreachable, so `run` never started and
`_is_recording` is still `False`) terminates without raising — it is a
guarded no-op performing no teardown step — but precisely because it is a
no-op it releases nothing: the `events.jsonl` file handle opened during the
partial start remains open (no capture backend had been started, so none
needs releasing). -/
theorem claim_C9_stop_after_failed_start (f : DuckTrack.StopFails) :
    DuckTrack.Recorder.stop_recording f DuckTrack.halfInitState
      = (DuckTrack.halfInitState, []) ∧
    DuckTrack.halfInitState.fileOpen = true ∧
    DuckTrack.halfInitState.backendRunning = false :=
  ⟨DuckTrack.stop_noop f _ rfl, rfl, rfl⟩

/-- Claim C10: lifecycle operations called in the wrong state are no-ops
that leave the state, the queue and the log untouched and do not call the
external recorder: `pause_recording` when already paused or not recording,
`resume_recording` when not paused or not recording, and `stop_recording`
when not recording all return the state unchanged with no OBS call, no
enqueued record and no teardown step; consequently a second consecutive
Pause is always a no-op, and so is a second consecutive Stop. -/
theorem claim_C10_wrong_state_noops (b : Bool) (t : Nat)
    (f g : DuckTrack.StopFails) (s : DuckTrack.RecorderState) :
    (s.isPaused = true → DuckTrack.Recorder.pause_recording b t s = (s, false)) ∧
    (s.isRecording = false →
      DuckTrack.Recorder.pause_recording b t s = (s, false)) ∧
    (s.isPaused = false →
      DuckTrack.Recorder.resume_recording b t s = (s, false)) ∧
    (s.isRecording = false →
      DuckTrack.Recorder.resume_recording b t s = (s, false)) ∧
    (s.isRecording = false →
      DuckTrack.Recorder.stop_recording f s = (s, [])) ∧
    (∀ b2 : Bool, ∀ t2 : Nat,
      DuckTrack.Recorder.pause_recording b2 t2
          (DuckTrack.Recorder.pause_recording b t s).1
        = ((DuckTrack.Recorder.pause_recording b t s).1, false)) ∧
    DuckTrack.Recorder.stop_recording g
        (DuckTrack.Recorder.stop_recording f s).1
      = ((DuckTrack.Recorder.stop_recording f s).1, []) := by
  refine ⟨?_, ?_, ?_, ?_, ?_, ?_, ?_⟩
  · intro hp
    simp [DuckTrack.Recorder.pause_recording, hp]
  · intro hr
    simp [DuckTrack.Recorder.pause_recording, hr]
  · intro hp
    simp [DuckTrack.Recorder.resume_recording, hp]
  · intro hr
    simp [DuckTrack.Recorder.resume_recording, hr]
  · intro hr
    exact DuckTrack.stop_noop f s hr
  · intro b2 t2
    by_cases hg : s.isPaused = false ∧ s.isRecording = true
    · apply DuckTrack.pause_noop
      intro hc
      rw [DuckTrack.pause_sets_paused b t s hg] at hc
      simp at hc
    · rw [DuckTrack.pause_noop b t s hg]
      exact DuckTrack.pause_noop b2 t2 s hg
  · cases hr : s.isRecording
    · rw [DuckTrack.stop_noop f s hr]
      exact DuckTrack.stop_noop g s hr
    · exact DuckTrack.stop_noop g _ (DuckTrack.stop_active f s hr).2.1

theorem claim_C10_wrong_state_noops_witness :
    DuckTrack.Recorder.pause_recording false 0
        ({ isPaused := true } : DuckTrack.RecorderState)
      = ({ isPaused := true }, false) ∧
    DuckTrack.Recorder.stop_recording {} ({} : DuckTrack.RecorderState)
      = ({}, []) :=
  ⟨(claim_C10_wrong_state_noops false 0 {} {} { isPaused := true }).1 rfl,
   (claim_C10_wrong_state_noops false 0 {} {} {}).2.2.2.2.1 rfl⟩
